import Mathlib

/-!
Verification development for the crypto trading pipeline
(agents/crypto_technicals.py, agents/crypto_risk_manager.py,
agents/portfolio_manager.py, utils/llm.py).

Numeric values (prices, indicator values, volatility) are embedded as
rationals.  Python float NaN, which arises from pandas statistics over
too-short series, is tracked with `Option ℚ` (`none` = NaN) at the point
where it enters and propagated explicitly.  External collaborators
(market-data API, talib indicator computation, the LLM decision backend)
are parameters of the embedded agents.  An uncaught Python exception is
modelled by an `Option`/`Except` failure value.
-/

namespace HedgeFund

/-! ## Risk Engine: agents/crypto_risk_manager.py -/

/-- Source `calculate_position_limit(portfolio_value, volatility, base_risk)`:
`risk_adjusted = base_risk / (volatility + 0.0001)` then
`portfolio_value * risk_adjusted`. -/
def calculate_position_limit (portfolio_value volatility base_risk : ℚ) : ℚ :=
  portfolio_value * (base_risk / (volatility + 1 / 10000))

/-- Source `calculate_stop_loss(current_price, volatility)`:
`stop_loss = current_price * (1 - min(volatility * 1.5, 0.5))` then
`max(stop_loss, current_price * 0.5)`. -/
def calculate_stop_loss (current_price volatility : ℚ) : ℚ :=
  max (current_price * (1 - min (volatility * (3 / 2)) (1 / 2))) (current_price * (1 / 2))

/-- Source `calculate_take_profit(current_price, volatility)`:
`current_price * (1 + volatility * 2)`. -/
def calculate_take_profit (current_price volatility : ℚ) : ℚ :=
  current_price * (1 + volatility * 2)

/-- A held position in the portfolio dict: `{amount, avg_price}`. -/
structure Position where
  amount : ℚ
  avg_price : ℚ
  deriving Repr, DecidableEq

/-- The portfolio dict `{cash, positions}` read by the risk manager. -/
structure Portfolio where
  cash : ℚ
  positions : List (String × Position)
  deriving Repr, DecidableEq

/-- Source loop in `crypto_risk_manager`:
`total_value = portfolio["cash"]` then
`for pos in portfolio["positions"].values(): total_value += pos["amount"] * pos["avg_price"]`. -/
def total_value (p : Portfolio) : ℚ :=
  p.cash + (p.positions.map (fun kv => kv.2.amount * kv.2.avg_price)).sum

/-- Source `calculate_volatility(df)`: pandas `std` (ddof = 1, skipna) of the
log-returns of consecutive closes, annualized by √252.  The numeric value
involves log and sqrt, so it is supplied by the oracle `std252`; what is
embedded is definedness: `returns = log(close / close.shift(1))` has
`closes.length - 1` non-NaN entries (the first is NaN from `shift(1)`), and
`Series.std()` with ddof = 1 is NaN unless at least 2 non-NaN entries exist,
i.e. unless `closes.length ≥ 3`.  `none` = NaN. -/
def calculate_volatility (std252 : List ℚ → ℚ) (closes : List ℚ) : Option ℚ :=
  if 3 ≤ closes.length then some (std252 closes) else none

/-- One entry of `risk_analysis[symbol]`.  The stored `market_data` sub-dict
is represented by its downstream-consumed field `weighted_avg_price`
(= `current_price`).  Fields derived from the possibly-NaN volatility are
Options: `none` = float NaN. -/
structure RiskEntry where
  position_limit : Option ℚ
  stop_loss : Option ℚ
  take_profit : Option ℚ
  volatility : Option ℚ
  current_price : ℚ
  deriving Repr, DecidableEq

/-- The per-symbol body of `crypto_risk_manager` (tv = total portfolio value,
closes = the close series of the fetched dataframe, price =
`market_data["weighted_avg_price"]`). -/
def risk_entry (std252 : List ℚ → ℚ) (tv : ℚ) (closes : List ℚ) (price : ℚ) : RiskEntry :=
  let volatility := calculate_volatility std252 closes
  { position_limit := volatility.map (fun v => calculate_position_limit tv v (2 / 100))
    stop_loss := volatility.map (fun v => calculate_stop_loss price v)
    take_profit := volatility.map (fun v => calculate_take_profit price v)
    volatility := volatility
    current_price := price }

/-- The `risk_analysis` dict built by the loop in `crypto_risk_manager`:
symbols with an empty dataframe (`getPrices sym = []`) are skipped
(`if df.empty: continue`); every other symbol is recorded. -/
def risk_analysis_of (std252 : List ℚ → ℚ) (getPrices : String → List ℚ)
    (getPrice : String → ℚ) (symbols : List String) (p : Portfolio) :
    List (String × RiskEntry) :=
  symbols.foldl (fun acc sym =>
    let closes := getPrices sym
    if closes.isEmpty then acc
    else acc ++ [(sym, risk_entry std252 (total_value p) closes (getPrice sym))]) []

/-! ## Signal Engine: agents/crypto_technicals.py -/

/-- Last-row indicator snapshot for one timeframe, as read by
`generate_trading_signal` (`.iloc[-1]` of the talib outputs).  Note the
source takes `bb_middle` as the "current price" compared against the
Bollinger bands. -/
structure TFIndicators where
  rsi : ℚ
  macd : ℚ
  macd_line2 : ℚ
  bb_upper : ℚ
  bb_middle : ℚ
  bb_lower : ℚ
  adx : ℚ
  deriving Repr, DecidableEq

/-- The three-way Bollinger classification of a timeframe. -/
inductive BBPosition where
  | oversold
  | overbought
  | normal
  deriving Repr, DecidableEq

/-- One entry of `timeframe_analysis[tf]`: RSI value, MACD verdict
(Bullish = true), Bollinger position, ADX value.  `trend_strength` is a pure
function of adx (`> 25`) and is not consumed by the scoring loop, so it is
not stored separately. -/
structure TFAnalysis where
  rsi : ℚ
  macdBullish : Bool
  bb : BBPosition
  adx : ℚ
  deriving Repr, DecidableEq

/-- First loop of `generate_trading_signal`:
`"Bullish" if current_macd > current_macd_signal else "Bearish"`;
`"Oversold" if current_price < current_bb_lower else "Overbought" if
current_price > current_bb_upper else "Normal"` with
`current_price = bb_middle.iloc[-1]`.  `macd_line2` is the MACD signal
line. -/
def analyze_timeframe (s : TFIndicators) : TFAnalysis :=
  { rsi := s.rsi
    macdBullish := decide (s.macd > s.macd_line2)
    bb := if s.bb_middle < s.bb_lower then BBPosition.oversold
          else if s.bb_middle > s.bb_upper then BBPosition.overbought
          else BBPosition.normal
    adx := s.adx }

/-- One iteration of the scoring loop of `generate_trading_signal`
(accumulator = (bullish_signals, bearish_signals, total_weight)):
`weight = 1.0 if tf == primary_tf else 0.5`; `total_weight += weight`;
`if rsi < 30: bullish += weight elif rsi > 70: bearish += weight`
(the elif guard is kept explicitly); MACD Bullish adds weight to bullish
else to bearish; Bollinger Oversold adds weight to bullish, elif Overbought
adds weight to bearish (the three positions are mutually exclusive values
of one field, so plain conditions are faithful). -/
def score_step (primary_tf : String) (acc : ℚ × ℚ × ℚ) (x : String × TFAnalysis) :
    ℚ × ℚ × ℚ :=
  let weight : ℚ := if x.1 = primary_tf then 1 else 1 / 2
  let bull := acc.1
    + (if x.2.rsi < 30 then weight else 0)
    + (if x.2.macdBullish then weight else 0)
    + (if x.2.bb = BBPosition.oversold then weight else 0)
  let bear := acc.2.1
    + (if ¬ x.2.rsi < 30 ∧ x.2.rsi > 70 then weight else 0)
    + (if x.2.macdBullish then 0 else weight)
    + (if x.2.bb = BBPosition.overbought then weight else 0)
  (bull, bear, acc.2.2 + weight)

/-- The dict returned by `generate_trading_signal` (before the agent adds
the `timeframes` key).  The `reasoning` string is pure text formatting of
the per-timeframe analyses and is not modelled. -/
structure TradingSignal where
  signal : String
  confidence : ℚ
  deriving Repr, DecidableEq

/-- Source `generate_trading_signal(signals, primary_tf)`.  Its first line
`primary_signals = signals[primary_tf]` raises KeyError when the primary
timeframe is not among the keys (in particular when `signals` is empty);
that crash is modelled by `none`.  Otherwise: build `timeframe_analysis`,
run the scoring loop, normalize `signal_strength = (bullish - bearish) /
total_weight`, then threshold at ±0.2. -/
def generate_trading_signal (signals : List (String × TFIndicators))
    (primary_tf : String) : Option TradingSignal :=
  match signals.lookup primary_tf with
  | none => none
  | some _ =>
    let timeframe_analysis := signals.map (fun x => (x.1, analyze_timeframe x.2))
    let scores := timeframe_analysis.foldl (score_step primary_tf) (0, 0, 0)
    let signal_strength := (scores.1 - scores.2.1) / scores.2.2
    some (if signal_strength > 1 / 5 then
            ⟨"bullish", min 100 (signal_strength * 50 + 50)⟩
          else if signal_strength < -(1 / 5) then
            ⟨"bearish", min 100 (-signal_strength * 50 + 50)⟩
          else ⟨"neutral", 50⟩)

/-- The configured timeframe dict keys of `crypto_technical_agent`, in
insertion order. -/
def timeframes : List String := ["1h", "4h", "1d"]

/-- `primary_timeframe = "1h"` in `crypto_technical_agent`. -/
def primary_timeframe : String := "1h"

/-- Per-symbol output of the technical agent: the trading-signal dict plus
`signal["timeframes"] = list(signals.keys())`. -/
structure FullSignal where
  signal : String
  confidence : ℚ
  timeframes : List String
  deriving Repr, DecidableEq

/-- Per-symbol body of `crypto_technical_agent`: fetch each configured
timeframe (`fetchInd sym tf` stands for `calculate_crypto_signals(
get_crypto_prices(sym, ..., interval=tf))` followed by the last-row reads;
`none` models an empty dataframe, which is skipped by `if df.empty:
continue`), then generate the combined signal.  The outer `none` is the
uncaught KeyError from `generate_trading_signal`. -/
def technical_for_symbol (fetchInd : String → String → Option TFIndicators)
    (sym : String) : Option FullSignal :=
  let signals := timeframes.filterMap (fun tf => (fetchInd sym tf).map (fun s => (tf, s)))
  (generate_trading_signal signals primary_timeframe).map
    (fun s => ⟨s.signal, s.confidence, signals.map Prod.fst⟩)

/-! ## Pipeline state and the two analyst agents -/

/-- A value stored under one key of the shared `analyst_signals` dict. -/
inductive AnalystOutput where
  | technical : List (String × FullSignal) → AnalystOutput
  | risk : List (String × RiskEntry) → AnalystOutput
  deriving DecidableEq

/-- The `state["data"]` dict as read by the agents.  `analyst_signals` is a
functional map (Python dict up to key order). -/
structure AgentData where
  symbols : List String
  portfolio : Portfolio
  analyst_signals : String → Option AnalystOutput

/-- The AgentState dict threaded through the pipeline. -/
structure AgentState where
  messages : List String
  data : AgentData

/-- Source `crypto_risk_manager(state)`: build `risk_analysis` over the
symbols, then return `{messages, data: {**data, "analyst_signals":
{**data.get("analyst_signals", {}), "crypto_risk_manager": risk_analysis}}}`
— the previous analyst keys are spread into the new dict. -/
def crypto_risk_manager (std252 : List ℚ → ℚ) (getPrices : String → List ℚ)
    (getPrice : String → ℚ) (state : AgentState) : AgentState :=
  let risk_analysis :=
    risk_analysis_of std252 getPrices getPrice state.data.symbols state.data.portfolio
  { state with data := { state.data with analyst_signals := fun k =>
      (if k = "crypto_risk_manager" then some (AnalystOutput.risk risk_analysis)
       else state.data.analyst_signals k) } }

/-- Source `crypto_technical_agent(state)`: build `technical_analysis` over
the symbols, then return `{messages, data: {**data, "analyst_signals":
{"crypto_technical_agent": technical_analysis}}}` — note the returned
`analyst_signals` dict contains ONLY this agent's key; the previous
analyst-signals mapping is NOT spread into it.  `none` = an uncaught
exception while processing some symbol. -/
def crypto_technical_agent (fetchInd : String → String → Option TFIndicators)
    (state : AgentState) : Option AgentState :=
  (state.data.symbols.mapM (fun sym =>
      (technical_for_symbol fetchInd sym).map (fun s => (sym, s)))).map
    (fun technical_analysis =>
      { state with data := { state.data with analyst_signals := fun k =>
          (if k = "crypto_technical_agent" then some (AnalystOutput.technical technical_analysis)
           else none) } })

/-! ## Decision Aggregator: agents/portfolio_manager.py and utils/llm.py -/

/-- Python `int()` applied to a float: truncation toward zero. -/
def pyInt (q : ℚ) : ℤ :=
  if 0 ≤ q then ⌊q⌋ else ⌈q⌉

/-- Source line 50 of portfolio_manager.py:
`max_shares[symbol] = int(position_limit / current_prices[symbol]) if
current_prices[symbol] > 0 else 0`. -/
def max_shares_for (position_limit current_price : ℚ) : ℤ :=
  if current_price > 0 then pyInt (position_limit / current_price) else 0

/-- Outcome of one LLM attempt as classified by `call_llm`: a parsed value,
a JSON-decode/pydantic-validation failure (the inner except clause), or any
other exception from model setup or invocation (the outer except clause). -/
inductive LLMOutcome (α : Type) where
  | ok : α → LLMOutcome α
  | parseError : LLMOutcome α
  | hardError : LLMOutcome α
  deriving DecidableEq

set_option linter.unusedVariables false in
/-- Source `call_llm` (utils/llm.py).  `backend n` is the outcome the
model/parse pipeline would produce on the n-th attempt.  The body performs
a single attempt (`backend 0`): the `max_retries` parameter (default 3) is
accepted but never read — the source has no retry loop.  On failure the
default factory is used when supplied; otherwise the exception propagates
(`Except.error`). -/
def call_llm (α : Type) (backend : ℕ → LLMOutcome α) (max_retries : ℕ)
    (default_factory : Option (Unit → α)) : Except String α :=
  match backend 0 with
  | LLMOutcome.ok a => Except.ok a
  | LLMOutcome.parseError =>
    match default_factory with
    | some f => Except.ok (f ())
    | none => Except.error "parse failure propagated"
  | LLMOutcome.hardError =>
    match default_factory with
    | some f => Except.ok (f ())
    | none => Except.error "backend exception propagated"

/-- One `PortfolioDecision` pydantic record. -/
structure PortfolioDecision where
  action : String
  quantity : ℤ
  confidence : ℚ
  reasoning : String
  deriving Repr, DecidableEq

/-- `PortfolioManagerOutput`: the decisions dict, as a functional map. -/
structure PortfolioManagerOutput where
  decisions : String → Option PortfolioDecision

/-- Source `create_default_portfolio_output` inside
`generate_trading_decision`: a decisions dict over exactly the input
tickers, each mapped to hold / 0 / 0.0 / the fixed error reasoning. -/
def create_default_portfolio_output (tickers : List String) : PortfolioManagerOutput :=
  ⟨fun s => if s ∈ tickers then
      some ⟨"hold", 0, 0, "Error in portfolio management, defaulting to hold"⟩
    else none⟩

/-- Source `generate_trading_decision`: builds the prompt (pure text, not
modelled) and delegates to `call_llm` with the default factory above;
`max_retries` keeps its default 3. -/
def generate_trading_decision (tickers : List String)
    (backend : ℕ → LLMOutcome PortfolioManagerOutput) : Except String PortfolioManagerOutput :=
  call_llm PortfolioManagerOutput backend 3 (some (fun _ => create_default_portfolio_output tickers))

/-! ## Spec-side formulations (§4.1 steps 3-4 of the spec, for refinement) -/

/-- Spec weighting: the primary timeframe gets weight 1.0, all others 0.5. -/
def spec_weight (primary_tf tf : String) : ℚ :=
  if tf = primary_tf then 1 else 1 / 2

/-- Spec per-timeframe bullish contributions: RSI < 30, MACD bullish,
Bollinger oversold each contribute one unit of the timeframe weight. -/
def spec_bull_units (a : TFAnalysis) : ℚ :=
  (if a.rsi < 30 then 1 else 0) + (if a.macdBullish then 1 else 0) +
    (if a.bb = BBPosition.oversold then 1 else 0)

/-- Spec per-timeframe bearish contributions: RSI > 70, MACD not bullish,
Bollinger overbought each contribute one unit of the timeframe weight. -/
def spec_bear_units (a : TFAnalysis) : ℚ :=
  (if a.rsi > 70 then 1 else 0) + (if a.macdBullish then 0 else 1) +
    (if a.bb = BBPosition.overbought then 1 else 0)

/-- Spec bullish score: weighted sum of bullish contributions. -/
def spec_bull_score (primary_tf : String) (l : List (String × TFAnalysis)) : ℚ :=
  (l.map (fun x => spec_weight primary_tf x.1 * spec_bull_units x.2)).sum

/-- Spec bearish score: weighted sum of bearish contributions. -/
def spec_bear_score (primary_tf : String) (l : List (String × TFAnalysis)) : ℚ :=
  (l.map (fun x => spec_weight primary_tf x.1 * spec_bear_units x.2)).sum

/-- Spec total weight: sum of the per-timeframe weights. -/
def spec_total_weight (primary_tf : String) (l : List (String × TFAnalysis)) : ℚ :=
  (l.map (fun x => spec_weight primary_tf x.1)).sum

/-- Spec signal strength: (bullish − bearish) / total weight. -/
def spec_strength (primary_tf : String) (l : List (String × TFAnalysis)) : ℚ :=
  (spec_bull_score primary_tf l - spec_bear_score primary_tf l) / spec_total_weight primary_tf l

/-- Spec decision thresholds: strength > 0.2 → bullish with confidence
min(100, strength·50+50); strength < −0.2 → bearish with confidence
min(100, −strength·50+50); otherwise neutral with confidence 50. -/
def spec_decision (primary_tf : String) (l : List (String × TFAnalysis)) : TradingSignal :=
  let s := spec_strength primary_tf l
  if s > 1 / 5 then ⟨"bullish", min 100 (s * 50 + 50)⟩
  else if s < -(1 / 5) then ⟨"bearish", min 100 (-s * 50 + 50)⟩
  else ⟨"neutral", 50⟩

/-! ## Concrete fixtures for counterexamples and witnesses -/

/-- A concrete indicator snapshot: RSI 50, MACD above its signal line,
price inside the bands, ADX 20. -/
def demo_ind : TFIndicators := ⟨50, 1, 0, 110, 100, 90, 20⟩

/-- A fetch oracle whose primary-timeframe ("1h") dataframe is empty while
"4h" and "1d" have data. -/
def primary_empty_fetch : String → String → Option TFIndicators :=
  fun _ tf => if tf = "1h" then none else some demo_ind

/-- A fetch oracle with no data at all (every dataframe empty). -/
def c5_fetch : String → String → Option TFIndicators := fun _ _ => none

/-- A pipeline state holding a pre-existing analyst key "other_agent" and
an empty symbol list. -/
def c5_state0 : AgentState :=
  { messages := []
    data := { symbols := []
              portfolio := ⟨0, []⟩
              analyst_signals := fun k =>
                if k = "other_agent" then some (AnalystOutput.risk []) else none } }

/-- The state returned by `crypto_technical_agent` on `c5_state0`: the
analyst-signals mapping now holds only the technical key. -/
def c5_state1 : AgentState :=
  { messages := []
    data := { symbols := []
              portfolio := ⟨0, []⟩
              analyst_signals := fun k =>
                if k = "crypto_technical_agent" then some (AnalystOutput.technical []) else none } }

/-- A backend that fails (parse error) on attempt 0 and would succeed with
value 7 on every later attempt. -/
def c2_backend : ℕ → LLMOutcome ℚ :=
  fun n => if n = 0 then LLMOutcome.parseError else LLMOutcome.ok 7

/-- A close-series oracle: one close for "BTC", no data for anything else. -/
def c7_prices : String → List ℚ :=
  fun s => if s = "BTC" then [100] else []

/-! ## Helper lemmas -/

/-- One scoring step adds the timeframe weight times the per-timeframe
contribution units to each accumulator component. -/
theorem score_step_eq (primary_tf : String) (acc : ℚ × ℚ × ℚ) (x : String × TFAnalysis) :
    score_step primary_tf acc x =
      (acc.1 + spec_weight primary_tf x.1 * spec_bull_units x.2,
       acc.2.1 + spec_weight primary_tf x.1 * spec_bear_units x.2,
       acc.2.2 + spec_weight primary_tf x.1) := by
  obtain ⟨tf, a⟩ := x
  obtain ⟨b, r, t⟩ := acc
  have hrsi : ∀ w : ℚ, (if ¬ a.rsi < 30 ∧ a.rsi > 70 then w else 0) =
      (if a.rsi > 70 then w else 0) := by
    intro w
    by_cases h1 : a.rsi < 30
    · have h2 : ¬ a.rsi > 70 := by linarith
      simp [h1, h2]
    · simp [h1]
  simp only [score_step, spec_weight, spec_bull_units, spec_bear_units, hrsi, Prod.mk.injEq]
  repeat' constructor
  all_goals first | trivial | (split_ifs <;> ring)

/-- The scoring loop computes the spec-side weighted sums. -/
theorem score_foldl_eq (primary_tf : String) (l : List (String × TFAnalysis)) :
    ∀ b r t : ℚ, l.foldl (score_step primary_tf) (b, r, t) =
      (b + spec_bull_score primary_tf l,
       r + spec_bear_score primary_tf l,
       t + spec_total_weight primary_tf l) := by
  induction l with
  | nil =>
    intro b r t
    simp [spec_bull_score, spec_bear_score, spec_total_weight]
  | cons x xs ih =>
    intro b r t
    rw [List.foldl_cons, score_step_eq, ih]
    simp only [spec_bull_score, spec_bear_score, spec_total_weight, List.map_cons,
      List.sum_cons, Prod.mk.injEq]
    refine ⟨by ring, by ring, by ring⟩

/-- The risk-analysis fold is the filterMap over the symbol list. -/
theorem risk_analysis_of_eq (std252 : List ℚ → ℚ) (getPrices : String → List ℚ)
    (getPrice : String → ℚ) (p : Portfolio) (symbols : List String) :
    risk_analysis_of std252 getPrices getPrice symbols p =
      symbols.filterMap (fun sym =>
        if (getPrices sym).isEmpty then none
        else some (sym, risk_entry std252 (total_value p) (getPrices sym) (getPrice sym))) := by
  have key : ∀ (l : List String) (acc : List (String × RiskEntry)),
      l.foldl (fun acc sym =>
        let closes := getPrices sym
        if closes.isEmpty then acc
        else acc ++ [(sym, risk_entry std252 (total_value p) closes (getPrice sym))]) acc =
      acc ++ l.filterMap (fun sym =>
        if (getPrices sym).isEmpty then none
        else some (sym, risk_entry std252 (total_value p) (getPrices sym) (getPrice sym))) := by
    intro l
    induction l with
    | nil => intro acc; simp
    | cons s rest ih =>
      intro acc
      rw [List.foldl_cons, List.filterMap_cons]
      dsimp only
      by_cases hs : (getPrices s).isEmpty
      · rw [if_pos hs, if_pos hs, ih]
      · rw [if_neg hs, if_neg hs, ih, List.append_assoc, List.singleton_append]
  rw [risk_analysis_of, key, List.nil_append]

/-! ## Theorems for the claims -/

/-- C3: for every volatility ≥ 0 and current_price > 0, the stop-loss lies
in [0.5·current_price, current_price] and the take-profit is
≥ current_price. -/
theorem stop_loss_take_profit_bounds (current_price volatility : ℚ)
    (hv : 0 ≤ volatility) (hp : 0 < current_price) :
    current_price * (1 / 2) ≤ calculate_stop_loss current_price volatility ∧
    calculate_stop_loss current_price volatility ≤ current_price ∧
    current_price ≤ calculate_take_profit current_price volatility := by
  unfold calculate_stop_loss calculate_take_profit
  refine ⟨le_max_right _ _, ?_, ?_⟩
  · have hm : (0 : ℚ) ≤ min (volatility * (3 / 2)) (1 / 2) := by
      have : (0 : ℚ) ≤ volatility * (3 / 2) := by positivity
      exact le_min this (by norm_num)
    have h1 : current_price * (1 - min (volatility * (3 / 2)) (1 / 2)) ≤ current_price := by
      nlinarith
    have h2 : current_price * (1 / 2) ≤ current_price := by nlinarith
    exact max_le h1 h2
  · nlinarith

/-- Witness for C3 at the spec scenario current_price = 100,
volatility = 1/2. -/
theorem stop_loss_take_profit_bounds_witness :
    (100 : ℚ) * (1 / 2) ≤ calculate_stop_loss 100 (1 / 2) ∧
    calculate_stop_loss 100 (1 / 2) ≤ 100 ∧
    (100 : ℚ) ≤ calculate_take_profit 100 (1 / 2) :=
  stop_loss_take_profit_bounds 100 (1 / 2) (by norm_num) (by norm_num)

/-- C8: for every portfolio and every volatility ≥ 0, the position limit the
risk manager computes (base_risk = 0.02 as passed at the call site) equals
total_value × 0.02 / (volatility + 0.0001), with total_value the cash plus
the entry-price valuation of all held positions; for volatility = 0 it
equals total_value × 0.02 / 0.0001 = total_value × 200 — no upper clamp. -/
theorem position_limit_formula (p : Portfolio) (volatility : ℚ) (hv : 0 ≤ volatility) :
    calculate_position_limit (total_value p) volatility (2 / 100) =
      total_value p * (2 / 100) / (volatility + 1 / 10000) ∧
    total_value p = p.cash + (p.positions.map (fun kv => kv.2.amount * kv.2.avg_price)).sum ∧
    (volatility = 0 →
      calculate_position_limit (total_value p) volatility (2 / 100) = total_value p * 200) := by
  refine ⟨by rw [calculate_position_limit, mul_div_assoc], rfl, fun h0 => ?_⟩
  subst h0
  rw [calculate_position_limit]
  ring

/-- Witness for C8 on a concrete portfolio (cash 60000, one position of
2 units at avg price 20000) and volatility 0. -/
theorem position_limit_formula_witness :
    calculate_position_limit (total_value ⟨60000, [("BTC", ⟨2, 20000⟩)]⟩) 0 (2 / 100) =
      total_value ⟨60000, [("BTC", ⟨2, 20000⟩)]⟩ * (2 / 100) / (0 + 1 / 10000) ∧
    total_value ⟨60000, [("BTC", ⟨2, 20000⟩)]⟩ =
      (60000 : ℚ) + ([("BTC", (⟨2, 20000⟩ : Position))].map
        (fun kv => kv.2.amount * kv.2.avg_price)).sum ∧
    ((0 : ℚ) = 0 →
      calculate_position_limit (total_value ⟨60000, [("BTC", ⟨2, 20000⟩)]⟩) 0 (2 / 100) =
        total_value ⟨60000, [("BTC", ⟨2, 20000⟩)]⟩ * 200) :=
  position_limit_formula ⟨60000, [("BTC", ⟨2, 20000⟩)]⟩ 0 le_rfl

/-- C9: for a symbol with both a technical and a risk entry the aggregator
computes max_shares = floor(position_limit / current_price) when
current_price > 0 and 0 otherwise; for non-negative position_limit,
max_shares × current_price ≤ position_limit. -/
theorem max_shares_cap (position_limit current_price : ℚ) (hpl : 0 ≤ position_limit) :
    (current_price > 0 →
      max_shares_for position_limit current_price = ⌊position_limit / current_price⌋ ∧
      (max_shares_for position_limit current_price : ℚ) * current_price ≤ position_limit) ∧
    (¬ current_price > 0 → max_shares_for position_limit current_price = 0) := by
  constructor
  · intro hcp
    have hq : 0 ≤ position_limit / current_price := by positivity
    have hfl : max_shares_for position_limit current_price = ⌊position_limit / current_price⌋ := by
      rw [max_shares_for, if_pos hcp, pyInt, if_pos hq]
    refine ⟨hfl, ?_⟩
    rw [hfl]
    have hle : (⌊position_limit / current_price⌋ : ℚ) ≤ position_limit / current_price :=
      Int.floor_le _
    calc (⌊position_limit / current_price⌋ : ℚ) * current_price
        ≤ (position_limit / current_price) * current_price :=
          mul_le_mul_of_nonneg_right hle (le_of_lt hcp)
      _ = position_limit := div_mul_cancel₀ _ (ne_of_gt hcp)
  · intro hcp
    rw [max_shares_for, if_neg hcp]

/-- Witness for C9 at position_limit = 1000, current_price = 3:
max_shares = floor(1000/3) = 333 and 333 × 3 ≤ 1000. -/
theorem max_shares_cap_witness :
    max_shares_for 1000 3 = ⌊(1000 : ℚ) / 3⌋ ∧
    (max_shares_for 1000 3 : ℚ) * 3 ≤ 1000 :=
  (max_shares_cap 1000 3 (by norm_num)).1 (by norm_num)

/-- C4: whenever the per-timeframe analysis map contains the primary
timeframe, `generate_trading_signal` returns exactly the spec-side
decision: weight 1.0 for the primary timeframe and 0.5 for every other,
the stated RSI/MACD/Bollinger score accumulation, signal_strength =
(bullish − bearish) / total_weight, and the stated ±0.2 thresholds with
confidences min(100, ±strength·50+50), else neutral with confidence 50. -/
theorem generate_trading_signal_spec (signals : List (String × TFIndicators))
    (primary_tf : String) (hmem : (signals.lookup primary_tf).isSome) :
    generate_trading_signal signals primary_tf =
      some (spec_decision primary_tf (signals.map (fun x => (x.1, analyze_timeframe x.2)))) := by
  obtain ⟨v, hv⟩ := Option.isSome_iff_exists.mp hmem
  rw [generate_trading_signal, hv]
  have hfold :=
    score_foldl_eq primary_tf (signals.map (fun x => (x.1, analyze_timeframe x.2))) 0 0 0
  simp only [zero_add] at hfold
  simp only [hfold, spec_decision, spec_strength]

/-- Witness for C4 on a one-timeframe map holding the primary timeframe. -/
theorem generate_trading_signal_spec_witness :
    generate_trading_signal [("1h", demo_ind)] "1h" =
      some (spec_decision "1h" ([("1h", demo_ind)].map (fun x => (x.1, analyze_timeframe x.2)))) :=
  generate_trading_signal_spec [("1h", demo_ind)] "1h" (by decide)

/-- C10: whenever `generate_trading_signal` succeeds, the returned
confidence lies in [50, 100]: it is exactly 50 when the action is
"neutral" and strictly greater than 60 when the action is "bullish" or
"bearish"; a value in [0, 50) is never produced. -/
theorem confidence_range (signals : List (String × TFIndicators)) (primary_tf : String)
    (sig : TradingSignal) (h : generate_trading_signal signals primary_tf = some sig) :
    50 ≤ sig.confidence ∧ sig.confidence ≤ 100 ∧
    (sig.signal = "neutral" → sig.confidence = 50) ∧
    ((sig.signal = "bullish" ∨ sig.signal = "bearish") → 60 < sig.confidence) := by
  rw [generate_trading_signal] at h
  cases hl : signals.lookup primary_tf with
  | none =>
    rw [hl] at h
    exact absurd h (by simp)
  | some v =>
    rw [hl] at h
    simp only [Option.some.injEq] at h
    split_ifs at h with h1 h2
    · subst h
      dsimp only
      refine ⟨le_min (by norm_num) (by linarith), min_le_left _ _, ?_, ?_⟩
      · intro hx
        exact absurd hx (by decide)
      · intro _
        exact lt_min (by norm_num) (by linarith)
    · subst h
      dsimp only
      refine ⟨le_min (by norm_num) (by linarith), min_le_left _ _, ?_, ?_⟩
      · intro hx
        exact absurd hx (by decide)
      · intro _
        exact lt_min (by norm_num) (by linarith)
    · subst h
      dsimp only
      refine ⟨by norm_num, by norm_num, fun _ => rfl, ?_⟩
      intro hx
      rcases hx with hx | hx <;> exact absurd hx (by decide)

/-- Witness for C10: on a concrete one-timeframe input the signal is
"bullish" with confidence 100, which satisfies all four bounds. -/
theorem confidence_range_witness :
    50 ≤ (⟨"bullish", 100⟩ : TradingSignal).confidence ∧
    (⟨"bullish", 100⟩ : TradingSignal).confidence ≤ 100 ∧
    ((⟨"bullish", 100⟩ : TradingSignal).signal = "neutral" →
      (⟨"bullish", 100⟩ : TradingSignal).confidence = 50) ∧
    (((⟨"bullish", 100⟩ : TradingSignal).signal = "bullish" ∨
      (⟨"bullish", 100⟩ : TradingSignal).signal = "bearish") →
      60 < (⟨"bullish", 100⟩ : TradingSignal).confidence) :=
  confidence_range [("1h", demo_ind)] "1h" ⟨"bullish", 100⟩ (by
    rw [generate_trading_signal, show List.lookup "1h" [("1h", demo_ind)] = some demo_ind from rfl]
    norm_num [analyze_timeframe, demo_ind, score_step, min_def,
      show BBPosition.normal ≠ BBPosition.oversold from by decide,
      show BBPosition.normal ≠ BBPosition.overbought from by decide])

/-- C1: when the decision-backend attempt raises an exception or its
response fails JSON parsing or validation, `generate_trading_decision`
returns Ok with the default output — whose decisions map holds exactly the
input tickers, each at hold / quantity 0 / confidence 0 — and never
propagates the failure (the default factory is supplied). -/
theorem decision_fallback (tickers : List String)
    (backend : ℕ → LLMOutcome PortfolioManagerOutput)
    (hfail : backend 0 = LLMOutcome.parseError ∨ backend 0 = LLMOutcome.hardError) :
    generate_trading_decision tickers backend =
      Except.ok (create_default_portfolio_output tickers) ∧
    (∀ s, s ∈ tickers → (create_default_portfolio_output tickers).decisions s =
      some ⟨"hold", 0, 0, "Error in portfolio management, defaulting to hold"⟩) ∧
    (∀ s, s ∉ tickers → (create_default_portfolio_output tickers).decisions s = none) := by
  refine ⟨?_, ?_, ?_⟩
  · rcases hfail with h | h <;> rw [generate_trading_decision, call_llm, h]
  · intro s hs
    rw [create_default_portfolio_output]
    exact if_pos hs
  · intro s hs
    rw [create_default_portfolio_output]
    exact if_neg hs

/-- Witness for C1: a hard backend error with tickers ["BTC"]; the result
is the Ok default, "BTC" maps to hold/0/0, and a foreign symbol maps to
nothing. -/
theorem decision_fallback_witness :
    generate_trading_decision ["BTC"] (fun _ => LLMOutcome.hardError) =
      Except.ok (create_default_portfolio_output ["BTC"]) ∧
    (create_default_portfolio_output ["BTC"]).decisions "BTC" =
      some ⟨"hold", 0, 0, "Error in portfolio management, defaulting to hold"⟩ ∧
    (create_default_portfolio_output ["BTC"]).decisions "ETH" = none := by
  have h := decision_fallback ["BTC"] (fun _ => LLMOutcome.hardError) (Or.inr rfl)
  exact ⟨h.1, h.2.1 "BTC" (by decide), h.2.2 "ETH" (by decide)⟩

/-- C2: the source performs no retry.  With backend `c2_backend`, which
fails with a parse error on attempt 0 and would succeed with value 7 on
attempt 1 — inside the stated budget of 3 — `call_llm` returns the default
value 0, not the available success 7. -/
theorem call_llm_no_retry :
    call_llm ℚ c2_backend 3 (some (fun _ => 0)) = Except.ok 0 ∧
    c2_backend 1 = LLMOutcome.ok 7 ∧ (0 : ℚ) ≠ 7 :=
  ⟨rfl, rfl, by norm_num⟩

/-- C5 counterexample: starting from a state whose analyst_signals mapping
already holds the key "other_agent", the technical stage succeeds and
returns a state in which that pre-existing key is gone — the stage does
not merely add its own key. -/
theorem technical_agent_overwrite_cex :
    crypto_technical_agent c5_fetch c5_state0 = some c5_state1 ∧
    c5_state0.data.analyst_signals "other_agent" = some (AnalystOutput.risk []) ∧
    c5_state1.data.analyst_signals "other_agent" = none :=
  ⟨rfl, rfl, rfl⟩

/-- C5 (amended): `crypto_risk_manager` preserves every analyst_signals key
other than its own and only adds its own key; `crypto_technical_agent`
instead replaces the analyst-signals mapping wholesale, so after it every
key other than its own is unmapped — pre-existing keys survive it only
when the prior mapping is empty. -/
theorem analyst_signals_merge (std252 : List ℚ → ℚ) (getPrices : String → List ℚ)
    (getPrice : String → ℚ) (fetchInd : String → String → Option TFIndicators)
    (state st2 : AgentState) (k : String) :
    (k ≠ "crypto_risk_manager" →
      (crypto_risk_manager std252 getPrices getPrice state).data.analyst_signals k =
        state.data.analyst_signals k) ∧
    (crypto_technical_agent fetchInd state = some st2 → k ≠ "crypto_technical_agent" →
      st2.data.analyst_signals k = none) := by
  constructor
  · intro hk
    exact if_neg hk
  · intro h hk
    rw [crypto_technical_agent] at h
    cases hm : state.data.symbols.mapM (fun sym =>
        (technical_for_symbol fetchInd sym).map (fun s => (sym, s))) with
    | none =>
      rw [hm] at h
      exact absurd h (by simp)
    | some ta =>
      rw [hm] at h
      injection h with h2
      rw [← h2]
      exact if_neg hk

/-- Witness for C5 (amended): the risk stage keeps the foreign key
"other_agent"; the state produced by the technical stage maps it to
nothing. -/
theorem analyst_signals_merge_witness :
    (crypto_risk_manager (fun _ => 0) (fun _ => []) (fun _ => 0) c5_state0).data.analyst_signals
        "other_agent" = c5_state0.data.analyst_signals "other_agent" ∧
    c5_state1.data.analyst_signals "other_agent" = none := by
  have h := analyst_signals_merge (fun _ => 0) (fun _ => []) (fun _ => 0) c5_fetch
    c5_state0 c5_state1 "other_agent"
  exact ⟨h.1 (by decide), h.2 rfl (by decide)⟩

/-- C6 counterexample: with data for "4h" and "1d" but an empty primary
"1h" series, the technical stage crashes with a KeyError (modelled `none`)
instead of producing a signal from the two remaining timeframes. -/
theorem technical_primary_skip_cex :
    technical_for_symbol primary_empty_fetch "BTC" = none :=
  rfl

/-- C6 (amended): a timeframe whose series is empty is skipped — absent
from the output timeframes list and excluded from aggregation, with
total_weight reduced to 1 + (surviving − 1)·0.5 — and the skip is
non-fatal provided the primary timeframe itself has data: a signal is then
still produced.  (If the primary timeframe is skipped, the stage fails;
see the counterexample.) -/
theorem technical_skip_nonfatal (fetchInd : String → String → Option TFIndicators)
    (sym : String) (pInd : TFIndicators) (hp : fetchInd sym "1h" = some pInd) :
    (technical_for_symbol fetchInd sym).isSome ∧
    (technical_for_symbol fetchInd sym).map FullSignal.timeframes =
      some (timeframes.filter (fun tf => (fetchInd sym tf).isSome)) ∧
    spec_total_weight primary_timeframe
        ((timeframes.filterMap (fun tf => (fetchInd sym tf).map (fun s => (tf, s)))).map
          (fun x => (x.1, analyze_timeframe x.2))) =
      1 + (((timeframes.filter (fun tf => (fetchInd sym tf).isSome)).length : ℚ) - 1) / 2 := by
  rcases h4 : fetchInd sym "4h" with _ | s4 <;>
    rcases hd : fetchInd sym "1d" with _ | sd <;>
      simp [technical_for_symbol, timeframes, primary_timeframe, generate_trading_signal,
        hp, h4, hd, spec_total_weight, spec_weight, List.lookup] <;>
      norm_num

/-- Witness for C6 (amended) at a fetch oracle with data on "1h" and "1d"
but an empty "4h" series. -/
theorem technical_skip_nonfatal_witness :
    (technical_for_symbol (fun _ tf => if tf = "4h" then none else some demo_ind) "BTC").isSome ∧
    (technical_for_symbol (fun _ tf => if tf = "4h" then none else some demo_ind) "BTC").map
        FullSignal.timeframes =
      some (timeframes.filter (fun tf =>
        ((fun _ tf => if tf = "4h" then none else some demo_ind) "BTC" tf).isSome)) ∧
    spec_total_weight primary_timeframe
        ((timeframes.filterMap (fun tf =>
          (((fun _ tf => if tf = "4h" then none else some demo_ind) : String → String → Option TFIndicators)
            "BTC" tf).map (fun s => (tf, s)))).map
          (fun x => (x.1, analyze_timeframe x.2))) =
      1 + (((timeframes.filter (fun tf =>
        ((fun _ tf => if tf = "4h" then none else some demo_ind) "BTC" tf).isSome)).length : ℚ) - 1) / 2 :=
  technical_skip_nonfatal (fun _ tf => if tf = "4h" then none else some demo_ind) "BTC" demo_ind rfl

/-- C7 counterexample: a symbol with a single close — fewer than 2 closes,
but a non-empty series — is NOT skipped: it is recorded in the risk
analysis, with undefined (NaN) volatility and NaN-derived risk fields. -/
theorem risk_single_close_cex :
    (risk_analysis_of (fun _ => 0) (fun _ => [100]) (fun _ => 100) ["BTC"] ⟨1000, []⟩).lookup "BTC" =
      some { position_limit := none, stop_loss := none, take_profit := none,
             volatility := none, current_price := 100 } :=
  rfl

/-- C7 (amended): only a symbol whose fetched series is empty is skipped
(absent from the risk-analysis map); any symbol with a non-empty series is
recorded — in particular one with fewer than 3 closes, whose volatility is
undefined (NaN) — and the run does not crash (the stage is total). -/
theorem risk_manager_skip (std252 : List ℚ → ℚ) (getPrices : String → List ℚ)
    (getPrice : String → ℚ) (p : Portfolio) (symbols : List String) (sym : String) :
    ((getPrices sym).isEmpty →
      (risk_analysis_of std252 getPrices getPrice symbols p).lookup sym = none) ∧
    (sym ∈ symbols → ¬ (getPrices sym).isEmpty →
      (risk_analysis_of std252 getPrices getPrice symbols p).lookup sym =
        some (risk_entry std252 (total_value p) (getPrices sym) (getPrice sym)) ∧
      ((getPrices sym).length < 3 →
        (risk_entry std252 (total_value p) (getPrices sym) (getPrice sym)).volatility = none)) := by
  rw [risk_analysis_of_eq]
  constructor
  · intro hemp
    induction symbols with
    | nil => rfl
    | cons s rest ih =>
      rw [List.filterMap_cons]
      by_cases hs : (getPrices s).isEmpty
      · rw [if_pos hs]
        exact ih
      · rw [if_neg hs]
        have hbf : (sym == s) = false := by
          refine beq_eq_false_iff_ne.mpr (fun hss => hs ?_)
          rw [← hss]
          exact hemp
        simp only [List.lookup, hbf]
        exact ih
  · intro hmem hne
    refine ⟨?_, ?_⟩
    · induction symbols with
      | nil => exact absurd hmem (List.not_mem_nil sym)
      | cons s rest ih =>
        rw [List.filterMap_cons]
        by_cases he : s = sym
        · subst he
          rw [if_neg hne]
          simp [List.lookup]
        · by_cases hs : (getPrices s).isEmpty
          · rw [if_pos hs]
            rcases List.mem_cons.mp hmem with h | h
            · exact absurd h.symm he
            · exact ih h
          · rw [if_neg hs]
            have hbf : (sym == s) = false :=
              beq_eq_false_iff_ne.mpr (fun hb => he hb.symm)
            simp only [List.lookup, hbf]
            rcases List.mem_cons.mp hmem with h | h
            · exact absurd h.symm he
            · exact ih h
    · intro hlen
      show calculate_volatility std252 (getPrices sym) = none
      rw [calculate_volatility, if_neg (by omega)]

/-- Witness for C7 (amended): "ETH" has an empty series and is absent;
"BTC" has one close and is present with undefined volatility. -/
theorem risk_manager_skip_witness :
    (risk_analysis_of (fun _ => 0) c7_prices (fun _ => 100) ["BTC", "ETH"] ⟨1000, []⟩).lookup
        "ETH" = none ∧
    (risk_analysis_of (fun _ => 0) c7_prices (fun _ => 100) ["BTC", "ETH"] ⟨1000, []⟩).lookup
        "BTC" =
      some (risk_entry (fun _ => 0) (total_value ⟨1000, []⟩) (c7_prices "BTC") 100) ∧
    (risk_entry (fun _ => 0) (total_value ⟨1000, []⟩) (c7_prices "BTC") 100).volatility = none := by
  have h1 := (risk_manager_skip (fun _ => 0) c7_prices (fun _ => 100) ⟨1000, []⟩
    ["BTC", "ETH"] "ETH").1 (by decide)
  have h2 := (risk_manager_skip (fun _ => 0) c7_prices (fun _ => 100) ⟨1000, []⟩
    ["BTC", "ETH"] "BTC").2 (by decide) (by decide)
  exact ⟨h1, h2.1, h2.2 (by decide)⟩

end HedgeFund
